import Mathlib

/-!
Verification of the performance-budget harness of proof-messenger-demos.

The configuration tables and resolver functions are embedded from
`performance-tests/config.py`, the payload validator and batch handler from
`performance-tests/mock_server.py`, and the end-of-test statistics from
`performance-tests/locustfile.py`.  The Budget Evaluator and the Alert
Severity Classifier described by the specification are not present in the
repository's source tree (only their configuration data is), so those two
are modelled from the specification text, as marked on their doc comments.

Python `float`/`int` values are embedded as `ℚ`/`ℤ`; Python dictionaries as
association lists with first-match lookup (a Python dict has unique keys, so
the two agree).
-/

/-- Budget dataclass from `config.py`: latency thresholds in milliseconds,
failure-rate threshold in percent, throughput floor, optional resource caps. -/
structure PerformanceBudget where
  max_p99_latency_ms : ℤ
  max_p95_latency_ms : ℤ
  max_avg_latency_ms : ℤ
  max_failure_rate_percent : ℚ
  min_rps : ℤ
  max_cpu_percent : Option ℤ := none
  max_memory_mb : Option ℤ := none
  max_error_rate_percent : Option ℚ := none
deriving DecidableEq, Repr

/-- Scenario dataclass from `config.py`. -/
structure TestScenario where
  name : String
  users : ℤ
  spawn_rate : ℤ
  duration : String
  description : String
  user_classes : List String
  tags : Option (List String) := none
deriving DecidableEq, Repr

/-- The `"development"` budget from the `PERFORMANCE_BUDGETS` table. -/
def developmentBudget : PerformanceBudget :=
  { max_p99_latency_ms := 300, max_p95_latency_ms := 200,
    max_avg_latency_ms := 100, max_failure_rate_percent := 1,
    min_rps := 50, max_cpu_percent := some 80, max_memory_mb := some 512 }

/-- The `"staging"` budget from the `PERFORMANCE_BUDGETS` table. -/
def stagingBudget : PerformanceBudget :=
  { max_p99_latency_ms := 200, max_p95_latency_ms := 150,
    max_avg_latency_ms := 75, max_failure_rate_percent := 1/2,
    min_rps := 100, max_cpu_percent := some 70, max_memory_mb := some 1024 }

/-- The `"production"` budget from the `PERFORMANCE_BUDGETS` table. -/
def productionBudget : PerformanceBudget :=
  { max_p99_latency_ms := 150, max_p95_latency_ms := 100,
    max_avg_latency_ms := 50, max_failure_rate_percent := 1/10,
    min_rps := 200, max_cpu_percent := some 60, max_memory_mb := some 2048 }

/-- The `PERFORMANCE_BUDGETS` table from `config.py` (environment name to
budget), embedded as an association list in declaration order. -/
def PERFORMANCE_BUDGETS : List (String × PerformanceBudget) :=
  [ ("development", developmentBudget),
    ("staging", stagingBudget),
    ("production", productionBudget) ]

/-- The `"normal"` scenario from the `TEST_SCENARIOS` table. -/
def normalScenario : TestScenario :=
  { name := "Normal Load", users := 500, spawn_rate := 50, duration := "2m",
    description := "Normal production load simulation",
    user_classes := ["ProofMessengerUser"], tags := some ["normal"] }

/-- The `TEST_SCENARIOS` table from `config.py` (scenario key to scenario),
embedded as an association list in declaration order. -/
def TEST_SCENARIOS : List (String × TestScenario) :=
  [ ("smoke",
      { name := "Smoke Test", users := 10, spawn_rate := 5, duration := "30s",
        description := "Quick smoke test to verify basic functionality",
        user_classes := ["ProofMessengerUser"], tags := some ["smoke"] }),
    ("normal", normalScenario),
    ("peak",
      { name := "Peak Hour Load", users := 1000, spawn_rate := 100, duration := "5m",
        description := "Peak hour traffic simulation",
        user_classes := ["PeakHourUser", "ProofMessengerUser"], tags := some ["peak"] }),
    ("stress",
      { name := "Stress Test", users := 2000, spawn_rate := 200, duration := "10m",
        description := "Stress test to find breaking point",
        user_classes := ["PeakHourUser", "HighVolumeUser", "ProofMessengerUser"],
        tags := some ["stress"] }),
    ("capacity",
      { name := "Capacity Test", users := 5000, spawn_rate := 500, duration := "15m",
        description := "Maximum capacity test",
        user_classes := ["HighVolumeUser"], tags := some ["capacity"] }),
    ("endurance",
      { name := "Endurance Test", users := 800, spawn_rate := 80, duration := "30m",
        description := "Long-running endurance test",
        user_classes := ["ProofMessengerUser", "HighVolumeUser"],
        tags := some ["endurance"] }) ]

/-- The numeric columns of the `PERFORMANCE_ALERTS` table from `config.py`
(tier name to p99-latency threshold in ms, failure-rate threshold in percent,
rps-drop threshold in percent).  In the source this table is configuration
data only; no code in the repository reads it. -/
def PERFORMANCE_ALERTS : List (String × ℤ × ℚ × ℤ) :=
  [ ("critical", (500, 1, 50)),
    ("warning", (300, 1/2, 25)),
    ("info", (200, 1/5, 10)) ]

/-- Python truthiness of `x or d` for an optional string `x`: `None` and the
empty string are falsy, every other string is returned unchanged. -/
def pyStrOr (x : Option String) (d : String) : String :=
  match x with
  | none => d
  | some s => if s = "" then d else s

/-- Embedding of `os.getenv(name, default)` against an explicit environment
mapping (a set variable may hold any string, including the empty one). -/
def osGetenv (ev : String → Option String) (name d : String) : String :=
  (ev name).getD d

/-- Embedding of Python `table.get(key, default)` on a dict. -/
def dictGet {α : Type} (table : List (String × α)) (key : String) (d : α) : α :=
  (table.lookup key).getD d

/-- `PerformanceConfig.get_budget` from `config.py`:
`env = environment or os.getenv("ENVIRONMENT", "development")`, then
`PERFORMANCE_BUDGETS.get(env, PERFORMANCE_BUDGETS["development"])`
(the `"development"` entry is `developmentBudget`).  The process environment
is passed explicitly. -/
def get_budget (environment : Option String) (ev : String → Option String) :
    PerformanceBudget :=
  let env := pyStrOr environment (osGetenv ev "ENVIRONMENT" "development")
  dictGet PERFORMANCE_BUDGETS env developmentBudget

/-- `PerformanceConfig.get_scenario` from `config.py`:
`scenario = scenario_name or os.getenv("TEST_SCENARIO", "normal")`, then
`TEST_SCENARIOS.get(scenario, TEST_SCENARIOS["normal"])`
(the `"normal"` entry is `normalScenario`). -/
def get_scenario (scenario_name : Option String) (ev : String → Option String) :
    TestScenario :=
  let scenario := pyStrOr scenario_name (osGetenv ev "TEST_SCENARIO" "normal")
  dictGet TEST_SCENARIOS scenario normalScenario

/-- Modelled from the spec: the three violation tiers of the Alert Severity
Classifier (section 4.3), together with the boundary outcome `pass` for an
observed value that satisfies its threshold.  No classifier function exists
in the source; only the `PERFORMANCE_ALERTS` data table does. -/
inductive Severity where
  | pass
  | info
  | warning
  | critical
deriving DecidableEq, Repr

/-- Comparison direction of a budget check: latency and failure-rate metrics
are `at_most` thresholds, the throughput floor is an `at_least` threshold. -/
inductive Direction where
  | at_most
  | at_least
deriving DecidableEq, Repr

/-- Modelled from the spec: the Alert Severity Classifier (section 4.3),
missing from the source.  An observed value meeting its threshold is
`pass`; otherwise the overage ratio (threshold over observed for an
`at_least` metric) selects the tier: ratio at least 2 is `critical`, at
least 1.5 is `warning`, otherwise `info`.  The ratio comparisons are taken
multiplicatively (`o ≥ 2·t` for `o/t ≥ 2`, and so on), which agrees with
the quotient whenever the denominator is positive and classifies an overage
against a zero threshold as `critical`, keeping the function total. -/
def classifySeverity (dir : Direction) (observed threshold : ℚ) : Severity :=
  match dir with
  | .at_most =>
    if observed ≤ threshold then .pass
    else if 2 * threshold ≤ observed then .critical
    else if 3 * threshold ≤ 2 * observed then .warning
    else .info
  | .at_least =>
    if threshold ≤ observed then .pass
    else if 2 * observed ≤ threshold then .critical
    else if 3 * observed ≤ 2 * threshold then .warning
    else .info

/-- A per-request outcome of the `SampleSet` (spec section 3): latency in
milliseconds and a success flag.  The optional endpoint tag is omitted; the
claims under verification use the single-group evaluation path. -/
structure Sample where
  latency_ms : ℚ
  success : Bool
deriving DecidableEq, Repr

/-- One entry of `Verdict.violations` (spec section 3). -/
structure Violation where
  metric : String
  observed : ℚ
  threshold : ℚ
  severity : Severity
deriving DecidableEq, Repr

/-- The `summary_stats` record of a `Verdict` (spec section 3). -/
structure SummaryStats where
  p50 : ℚ
  p95 : ℚ
  p99 : ℚ
  avg : ℚ
  rps : ℚ
  failure_rate_percent : ℚ
deriving DecidableEq, Repr

/-- The evaluator's output (spec section 3). -/
structure Verdict where
  passed : Bool
  violations : List Violation
  summary_stats : SummaryStats
deriving DecidableEq, Repr

/-- Modelled from the spec: the two fatal error kinds of section 7
(`ValidationError` for a malformed sample, `ConfigurationError` for a
non-positive wall-clock duration). -/
inductive EvalError where
  | validationError (msg : String)
  | configurationError (msg : String)
deriving DecidableEq, Repr

/-- Insert a value into an ascending list, keeping it ascending. -/
def insertAsc (x : ℚ) : List ℚ → List ℚ
  | [] => [x]
  | y :: ys => if x ≤ y then x :: y :: ys else y :: insertAsc x ys

/-- Ascending insertion sort, used by the nearest-rank percentile. -/
def sortAsc (l : List ℚ) : List ℚ :=
  l.foldr insertAsc []

/-- Modelled from the spec: nearest-rank percentile (section 4.2, step 2):
sort ascending, take index `⌈p · count⌉ − 1` clamped to the valid range;
the percentile of an empty list is 0. -/
def percentile (p : ℚ) (lats : List ℚ) : ℚ :=
  match lats with
  | [] => 0
  | _ =>
    let n := lats.length
    let idx := min ((Int.ceil (p * (n : ℚ))).toNat - 1) (n - 1)
    (sortAsc lats).getD idx 0

/-- Average of a list of rationals, 0 for the empty list. -/
def avgOf (lats : List ℚ) : ℚ :=
  if lats.length = 0 then 0 else lats.sum / (lats.length : ℚ)

/-- Number of failed samples in a sample set. -/
def countFailed (samples : List Sample) : ℕ :=
  samples.countP (fun s => !s.success)

/-- Modelled from the spec: failure rate as `100 × failed_count / total_count`,
0 when the sample set is empty (section 4.2, step 2). -/
def failureRatePercent (samples : List Sample) : ℚ :=
  if samples.length = 0 then 0
  else 100 * (countFailed samples : ℚ) / (samples.length : ℚ)

/-- One `at_most` budget check: no violation when the observed value is at
most the threshold, otherwise a single violation entry whose severity comes
from the classifier (spec section 4.2, step 3). -/
def checkAtMost (metric : String) (observed threshold : ℚ) : List Violation :=
  if observed ≤ threshold then []
  else [⟨metric, observed, threshold, classifySeverity .at_most observed threshold⟩]

/-- One `at_least` budget check (the throughput floor). -/
def checkAtLeast (metric : String) (observed threshold : ℚ) : List Violation :=
  if threshold ≤ observed then []
  else [⟨metric, observed, threshold, classifySeverity .at_least observed threshold⟩]

/-- Modelled from the spec: the ordered violation list of one evaluation
(section 4.2, step 3).  An empty sample set passes every latency and
failure-rate check by definition (section 4.2, step 2), so those checks are
only run on a non-empty sample set; the throughput check always runs. -/
def violationsOf (b : PerformanceBudget) (samples : List Sample) (d : ℚ) :
    List Violation :=
  let lats := samples.map (fun s => s.latency_ms)
  let latencyAndFailure :=
    if samples.isEmpty then []
    else
      checkAtMost "p99_latency_ms" (percentile (99/100) lats) (b.max_p99_latency_ms : ℚ)
      ++ checkAtMost "p95_latency_ms" (percentile (95/100) lats) (b.max_p95_latency_ms : ℚ)
      ++ checkAtMost "avg_latency_ms" (avgOf lats) (b.max_avg_latency_ms : ℚ)
      ++ checkAtMost "failure_rate_percent" (failureRatePercent samples)
           b.max_failure_rate_percent
  latencyAndFailure
    ++ checkAtLeast "rps" ((samples.length : ℚ) / d) (b.min_rps : ℚ)

/-- Modelled from the spec: the aggregate statistics of one evaluation
(section 4.2, step 2), with `rps = total_count / duration`. -/
def summaryOf (samples : List Sample) (d : ℚ) : SummaryStats :=
  let lats := samples.map (fun s => s.latency_ms)
  { p50 := percentile (50/100) lats,
    p95 := percentile (95/100) lats,
    p99 := percentile (99/100) lats,
    avg := avgOf lats,
    rps := (samples.length : ℚ) / d,
    failure_rate_percent := failureRatePercent samples }

/-- Modelled from the spec: the verdict of one evaluation, with
`passed` true exactly when the violation list is empty (section 4.2,
step 4). -/
def computeVerdict (b : PerformanceBudget) (samples : List Sample) (d : ℚ) :
    Verdict :=
  let viols := violationsOf b samples d
  { passed := viols.isEmpty, violations := viols, summary_stats := summaryOf samples d }

/-- Modelled from the spec: the Budget Evaluator `evaluate` (sections 4.2
and 7), absent from the source tree.  A non-positive wall-clock duration is
a `ConfigurationError`, a sample with negative latency a `ValidationError`;
otherwise the verdict is computed.  Endpoint overrides are not supplied, so
all samples form one group evaluated against the top-level budget. -/
def evaluate (b : PerformanceBudget) (samples : List Sample) (d : ℚ) :
    Except EvalError Verdict :=
  if d ≤ 0 then
    .error (.configurationError "wall-clock duration must be positive")
  else if samples.any (fun s => s.latency_ms < 0) then
    .error (.validationError "sample latency must be non-negative")
  else
    .ok (computeVerdict b samples d)

/-- The final-statistics computation of `on_test_stop` in `locustfile.py`:
`failure_rate = (total_failures / total_requests) * 100`, computed only when
`total_requests > 0`. -/
def locustFailureRate (total_requests total_failures : ℕ) : ℚ :=
  ((total_failures : ℚ) / (total_requests : ℚ)) * 100

/-- A JSON-like Python value, as handled by the mock server: a dict (unique
keys, embedded as an association list), array, string, number, boolean, or
`None` / any other non-dict object collapsed to `null`. -/
inductive JVal where
  | obj : List (String × JVal) → JVal
  | arr : List JVal → JVal
  | str : String → JVal
  | num : ℚ → JVal
  | boolean : Bool → JVal
  | null : JVal

/-- Python `key in d` on a dict embedded as an association list. -/
def hasKey (fields : List (String × JVal)) (k : String) : Bool :=
  fields.any (fun p => p.1 = k)

/-- The second half of `validate_proof_payload` from `mock_server.py`: the
`proof_bundle` value must be a dict and contain `context` and `signature`
keys, checked in that order. -/
def validateBundle (bundle_val : JVal) : Bool × String :=
  match bundle_val with
  | .obj bundle =>
    if hasKey bundle "context" = false then
      (false, "Missing required field in proof_bundle: context")
    else if hasKey bundle "signature" = false then
      (false, "Missing required field in proof_bundle: signature")
    else
      (true, "Valid")
  | _ => (false, "proof_bundle must be an object")

/-- `validate_proof_payload` from `mock_server.py`: the payload must be a
dict, contain a `proof_bundle` key, whose value is a dict containing
`context` and `signature` keys; the result pairs the validity flag with the
message the source returns on that branch. -/
def validate_proof_payload (payload : JVal) : Bool × String :=
  match payload with
  | .obj fields =>
    if hasKey fields "proof_bundle" = false then
      (false, "Missing required field: proof_bundle")
    else
      validateBundle ((fields.lookup "proof_bundle").getD .null)
  | _ => (false, "Payload must be a JSON object")

/-- The shape `validate_proof_payload` accepts: a dict whose `proof_bundle`
entry is a dict containing both `context` and `signature` keys. -/
def wellFormedPayload (payload : JVal) : Prop :=
  ∃ fields bundle, payload = .obj fields
    ∧ (fields.lookup "proof_bundle").getD .null = .obj bundle
    ∧ hasKey fields "proof_bundle" = true
    ∧ hasKey bundle "context" = true
    ∧ hasKey bundle "signature" = true

/-- The per-proof loop of `batch_verify_proofs` in `mock_server.py`,
processing the proofs at positions `i, i+1, …`: the outcome oracle stands
for the source's random draw per proof; successes are counted, failures
collect their indices in order. -/
def processBatch (oracle : ℕ → Bool) (i : ℕ) : List JVal → ℕ × List ℕ
  | [] => (0, [])
  | _ :: rest =>
    let r := processBatch oracle (i + 1) rest
    if oracle i then (r.1 + 1, r.2) else (r.1, i :: r.2)

/-- The counts of the HTTP 200 response body of `batch_verify_proofs`. -/
structure BatchResponse where
  total_count : ℕ
  verified_count : ℕ
  failed_count : ℕ
  failed_indices : List ℕ
deriving DecidableEq, Repr

/-- The `batch_verify_proofs` handler from `mock_server.py`, restricted to
its response counts: a payload whose `proofs` field is a list is processed
proof by proof into an HTTP 200 response with `total_count = len(proofs)`,
`verified_count` the number of successes and `failed_count` the length of
the failed-proofs list; any other payload gets an error response (a 400 for
a dict without a `proofs` list, a 500 for a non-dict payload, whose `in`
test raises). -/
def batchFromFields (fields : List (String × JVal)) (oracle : ℕ → Bool) :
    Except String BatchResponse :=
  match fields.lookup "proofs" with
  | some (.arr proofs) =>
    let r := processBatch oracle 0 proofs
    .ok ⟨proofs.length, r.1, r.2.length, r.2⟩
  | _ => .error "proofs field must be an array"

/-- The dispatch of `batch_verify_proofs` on the payload shape: a dict is
handled by `batchFromFields`; on a non-dict payload the source's `in` test
raises, caught as a 500 response. -/
def batch_verify_proofs (payload : JVal) (oracle : ℕ → Bool) :
    Except String BatchResponse :=
  match payload with
  | .obj fields => batchFromFields fields oracle
  | _ => .error "Internal server error"

/-- A process environment with `ENVIRONMENT` set to `"production"` and no
other variable set. -/
def envProduction : String → Option String :=
  fun n => if n = "ENVIRONMENT" then some "production" else none

/-- A well-formed proof payload, shaped like the ones the load generator in
`locustfile.py` sends. -/
def samplePayload : JVal :=
  .obj [("proof_bundle",
          .obj [("context", .str "ctx"), ("signature", .str "sig"),
                ("public_key", .str "pk"), ("algorithm", .str "ECDSA-SHA256")]),
        ("metadata", .obj [("client_version", .str "1.0.0")])]

/-- Helper: the violation list of an empty sample set is just the outcome of
the throughput check at observed rate 0. -/
theorem violationsOf_nil (b : PerformanceBudget) (d : ℚ) :
    violationsOf b [] d = checkAtLeast "rps" 0 (b.min_rps : ℚ) := by
  simp [violationsOf]

/-- Helper: `processBatch` sends every proof either to the success count or
to the failed list. -/
theorem processBatch_count_partition (oracle : ℕ → Bool) (l : List JVal) :
    ∀ i : ℕ,
      (processBatch oracle i l).1 + (processBatch oracle i l).2.length = l.length := by
  induction l with
  | nil => intro i; simp [processBatch]
  | cons x rest ih =>
    intro i
    have hr := ih (i + 1)
    by_cases h : oracle i <;> simp [processBatch, h] <;> omega

/-- C4: evaluating any budget against any sample set with a wall-clock
duration of zero yields the distinct `ConfigurationError`, not a verdict. -/
theorem evaluate_zero_duration_config_error
    (b : PerformanceBudget) (samples : List Sample) :
    evaluate b samples 0
      = Except.error (.configurationError "wall-clock duration must be positive") := by
  simp [evaluate]

/-- C9: `get_budget` and `get_scenario` treat the empty string exactly like
`None`: it is never looked up in the table, and resolution falls back to the
environment variable and then to the default entry. -/
theorem resolver_empty_string_as_none (ev : String → Option String) :
    get_budget (some "") ev = get_budget none ev
    ∧ get_scenario (some "") ev = get_scenario none ev := by
  constructor <;> rfl

/-- C3: the severity classifier is a total function, and an observed value
exactly equal to its threshold classifies as passing in both directions,
never as a violation tier. -/
theorem classify_boundary_equality_passes
    (dir : Direction) (o t : ℚ) (_ho : 0 ≤ o) (_ht : 0 ≤ t) (het : o = t) :
    classifySeverity dir o t = Severity.pass := by
  subst het
  cases dir <;> simp [classifySeverity]

/-- C3 witness at the concrete pair (5, 5). -/
theorem classify_boundary_equality_passes_witness :
    classifySeverity Direction.at_most 5 5 = Severity.pass
    ∧ classifySeverity Direction.at_least 5 5 = Severity.pass :=
  ⟨classify_boundary_equality_passes _ 5 5 (by norm_num) (by norm_num) rfl,
   classify_boundary_equality_passes _ 5 5 (by norm_num) (by norm_num) rfl⟩

/-- C7: every scenario in the `TEST_SCENARIOS` table has a positive user
count, a positive spawn rate, and a spawn rate at most its user count. -/
theorem test_scenarios_users_spawn_rate_bounds :
    ∀ p ∈ TEST_SCENARIOS,
      0 < p.2.users ∧ 0 < p.2.spawn_rate ∧ p.2.spawn_rate ≤ p.2.users := by
  decide

/-- C7 witness at the `"normal"` table entry. -/
theorem test_scenarios_users_spawn_rate_bounds_witness :
    0 < normalScenario.users ∧ 0 < normalScenario.spawn_rate
    ∧ normalScenario.spawn_rate ≤ normalScenario.users :=
  test_scenarios_users_spawn_rate_bounds ("normal", normalScenario) (by decide)

/-- C2: every verdict the evaluator returns has `passed` true exactly when
its violation list is empty. -/
theorem verdict_passed_iff_no_violations
    (b : PerformanceBudget) (samples : List Sample) (d : ℚ) (v : Verdict)
    (h : evaluate b samples d = Except.ok v) :
    v.passed = true ↔ v.violations = [] := by
  unfold evaluate at h
  split at h
  · exact Except.noConfusion h
  · split at h
    · exact Except.noConfusion h
    · injection h with h
      subst h
      simp [computeVerdict, List.isEmpty_iff]

/-- C2 witness: a concrete successful evaluation. -/
theorem verdict_passed_iff_no_violations_witness :
    evaluate developmentBudget [{ latency_ms := 10, success := true }] 1
      = Except.ok (computeVerdict developmentBudget [{ latency_ms := 10, success := true }] 1)
    ∧ ((computeVerdict developmentBudget [{ latency_ms := 10, success := true }] 1).passed = true
      ↔ (computeVerdict developmentBudget [{ latency_ms := 10, success := true }] 1).violations = []) :=
  ⟨by norm_num [evaluate],
   verdict_passed_iff_no_violations developmentBudget
     [{ latency_ms := 10, success := true }] 1
     (computeVerdict developmentBudget [{ latency_ms := 10, success := true }] 1)
     (by norm_num [evaluate])⟩

/-- C5: on a non-empty sample set, the failure rate in the verdict's summary
statistics is `100 × failed_count / total_count`, a percentage. -/
theorem verdict_failure_rate_formula
    (b : PerformanceBudget) (samples : List Sample) (d : ℚ) (v : Verdict)
    (hne : samples ≠ []) (h : evaluate b samples d = Except.ok v) :
    v.summary_stats.failure_rate_percent
      = 100 * (countFailed samples : ℚ) / (samples.length : ℚ) := by
  have hlen : samples.length ≠ 0 := by simpa [List.length_eq_zero] using hne
  unfold evaluate at h
  split at h
  · exact Except.noConfusion h
  · split at h
    · exact Except.noConfusion h
    · injection h with h
      subst h
      simp [computeVerdict, summaryOf, failureRatePercent, hlen]

/-- C5 witness: one sample, one failure. -/
theorem verdict_failure_rate_formula_witness :
    ([{ latency_ms := 10, success := false }] : List Sample) ≠ []
    ∧ (computeVerdict developmentBudget [{ latency_ms := 10, success := false }] 1).summary_stats.failure_rate_percent
      = 100 * (countFailed [{ latency_ms := 10, success := false }] : ℚ)
        / (([{ latency_ms := 10, success := false }] : List Sample).length : ℚ) :=
  ⟨by decide,
   verdict_failure_rate_formula developmentBudget
     [{ latency_ms := 10, success := false }] 1
     (computeVerdict developmentBudget [{ latency_ms := 10, success := false }] 1)
     (by decide) (by norm_num [evaluate])⟩

/-- C6: with a positive duration, the empty sample set evaluates without
error, produces no latency or failure-rate violation, and violates the
throughput floor exactly when `min_rps` is strictly positive. -/
theorem evaluate_empty_samples_only_rps_violation
    (b : PerformanceBudget) (d : ℚ) (hd : 0 < d) :
    evaluate b [] d = Except.ok (computeVerdict b [] d)
    ∧ (∀ w ∈ (computeVerdict b [] d).violations, w.metric = "rps")
    ∧ (0 < b.min_rps → (computeVerdict b [] d).violations ≠ [])
    ∧ (b.min_rps ≤ 0 → (computeVerdict b [] d).violations = []) := by
  have hviol : (computeVerdict b [] d).violations
      = checkAtLeast "rps" 0 (b.min_rps : ℚ) := by
    simp [computeVerdict, violationsOf]
  refine ⟨?_, ?_, ?_, ?_⟩
  · simp [evaluate, not_le.mpr hd]
  · intro w hw
    rw [hviol] at hw
    unfold checkAtLeast at hw
    split at hw
    · simp at hw
    · simp at hw
      simp [hw]
  · intro hpos
    rw [hviol]
    have hnot : ¬ ((b.min_rps : ℚ) ≤ 0) := by
      rw [not_le]
      exact_mod_cast hpos
    simp [checkAtLeast, hnot]
  · intro hle
    rw [hviol]
    have hcast : (b.min_rps : ℚ) ≤ 0 := by exact_mod_cast hle
    simp [checkAtLeast, hcast]

/-- C6 witness at the development budget (whose `min_rps` is 50) and a
30-second run. -/
theorem evaluate_empty_samples_only_rps_violation_witness :
    evaluate developmentBudget [] 30 = Except.ok (computeVerdict developmentBudget [] 30)
    ∧ (∀ w ∈ (computeVerdict developmentBudget [] 30).violations, w.metric = "rps")
    ∧ (0 < developmentBudget.min_rps → (computeVerdict developmentBudget [] 30).violations ≠ [])
    ∧ (developmentBudget.min_rps ≤ 0 → (computeVerdict developmentBudget [] 30).violations = []) :=
  evaluate_empty_samples_only_rps_violation developmentBudget 30 (by norm_num)

/-- C1 (counterexample): the empty string is an environment name absent from
the budget table, yet with `ENVIRONMENT` set to `"production"` the resolver
returns the production budget, not the development one — the empty name is
falsy in `environment or os.getenv(...)` and is replaced by the variable
before the lookup. -/
theorem resolver_empty_name_counterexample :
    PERFORMANCE_BUDGETS.lookup "" = none
    ∧ get_budget (some "") envProduction = productionBudget
    ∧ productionBudget ≠ developmentBudget := by
  refine ⟨by decide, rfl, ?_⟩
  intro h
  have h2 := congrArg PerformanceBudget.min_rps h
  simp [productionBudget, developmentBudget] at h2

/-- C1 (amended): every non-empty environment name absent from the budget
table resolves to the development budget, and every non-empty scenario name
absent from the scenario table resolves to the normal scenario, whatever the
process environment; given `None`, the name defaults to the corresponding
environment variable and, when that is unset, to `"development"` /
`"normal"`; resolution is a total function, so it never fails. -/
theorem resolver_unknown_name_defaults
    (name : String) (ev : String → Option String) :
    (name ≠ "" → PERFORMANCE_BUDGETS.lookup name = none →
      get_budget (some name) ev = developmentBudget)
    ∧ (name ≠ "" → TEST_SCENARIOS.lookup name = none →
      get_scenario (some name) ev = normalScenario)
    ∧ (ev "ENVIRONMENT" = none → get_budget none ev = developmentBudget)
    ∧ (ev "TEST_SCENARIO" = none → get_scenario none ev = normalScenario)
    ∧ (ev "ENVIRONMENT" = some name →
      get_budget none ev = dictGet PERFORMANCE_BUDGETS name developmentBudget)
    ∧ (ev "TEST_SCENARIO" = some name →
      get_scenario none ev = dictGet TEST_SCENARIOS name normalScenario) := by
  refine ⟨?_, ?_, ?_, ?_, ?_, ?_⟩
  · intro h1 h2
    simp [get_budget, pyStrOr, dictGet, h1, h2]
  · intro h1 h2
    simp [get_scenario, pyStrOr, dictGet, h1, h2]
  · intro h
    have hv : osGetenv ev "ENVIRONMENT" "development" = "development" := by
      simp [osGetenv, h]
    simp only [get_budget, pyStrOr, hv]
    decide
  · intro h
    have hv : osGetenv ev "TEST_SCENARIO" "normal" = "normal" := by
      simp [osGetenv, h]
    simp only [get_scenario, pyStrOr, hv]
    decide
  · intro h
    have hv : osGetenv ev "ENVIRONMENT" "development" = name := by
      simp [osGetenv, h]
    simp [get_budget, pyStrOr, hv]
  · intro h
    have hv : osGetenv ev "TEST_SCENARIO" "normal" = name := by
      simp [osGetenv, h]
    simp [get_scenario, pyStrOr, hv]

/-- C1 witness: the unknown name `"qa"` resolves to the development budget,
and an unset environment resolves `None` to the normal scenario. -/
theorem resolver_unknown_name_defaults_witness :
    get_budget (some "qa") (fun _ => none) = developmentBudget
    ∧ get_scenario none (fun _ => none) = normalScenario :=
  ⟨(resolver_unknown_name_defaults "qa" (fun _ => none)).1 (by decide) (by decide),
   (resolver_unknown_name_defaults "qa" (fun _ => none)).2.2.2.1 rfl⟩

/-- C8: every HTTP 200 response of the batch handler for a payload whose
`proofs` field is a list reports `verified_count + failed_count =
total_count`, with `total_count` the length of the submitted list. -/
theorem batch_verify_counts_partition
    (fields : List (String × JVal)) (proofs : List JVal) (oracle : ℕ → Bool)
    (resp : BatchResponse)
    (hl : fields.lookup "proofs" = some (JVal.arr proofs))
    (h : batch_verify_proofs (.obj fields) oracle = Except.ok resp) :
    resp.verified_count + resp.failed_count = resp.total_count
    ∧ resp.total_count = proofs.length := by
  have h2 : batchFromFields fields oracle = Except.ok resp := h
  unfold batchFromFields at h2
  rw [hl] at h2
  injection h2 with h2
  subst h2
  exact ⟨processBatch_count_partition oracle proofs 0, rfl⟩

/-- C8 witness: a two-proof batch where the first verifies and the second
fails. -/
theorem batch_verify_counts_partition_witness :
    (⟨2, 1, 1, [1]⟩ : BatchResponse).verified_count
        + (⟨2, 1, 1, [1]⟩ : BatchResponse).failed_count
      = (⟨2, 1, 1, [1]⟩ : BatchResponse).total_count
    ∧ (⟨2, 1, 1, [1]⟩ : BatchResponse).total_count
      = ([JVal.null, JVal.null] : List JVal).length :=
  batch_verify_counts_partition [("proofs", JVal.arr [JVal.null, JVal.null])]
    [JVal.null, JVal.null] (fun i => decide (i = 0)) ⟨2, 1, 1, [1]⟩ rfl rfl

/-- Helper: characterization of the bundle half of the validator. -/
theorem validateBundle_characterization (bv : JVal) :
    (validateBundle bv = (true, "Valid")
      ↔ ∃ bundle, bv = JVal.obj bundle ∧ hasKey bundle "context" = true
        ∧ hasKey bundle "signature" = true)
    ∧ ((validateBundle bv).1 = true → validateBundle bv = (true, "Valid"))
    ∧ ((validateBundle bv).1 = false → (validateBundle bv).2 ≠ "") := by
  cases bv with
  | obj bundle =>
    cases hc : hasKey bundle "context" <;> cases hs : hasKey bundle "signature" <;>
      simp [validateBundle, hc, hs]
  | arr l => simp [validateBundle]
  | str s => simp [validateBundle]
  | num q => simp [validateBundle]
  | boolean b => simp [validateBundle]
  | null => simp [validateBundle]

/-- C10: the payload validator is a total function; it returns
`(True, "Valid")` exactly on a dict whose `proof_bundle` entry is a dict
containing both `context` and `signature` keys, and on every other input it
returns `False` together with a non-empty message. -/
theorem validate_proof_payload_characterization (p : JVal) :
    (validate_proof_payload p = (true, "Valid") ↔ wellFormedPayload p)
    ∧ ((validate_proof_payload p).1 = true → validate_proof_payload p = (true, "Valid"))
    ∧ ((validate_proof_payload p).1 = false → (validate_proof_payload p).2 ≠ "") := by
  cases p with
  | obj fields =>
    cases hpb : hasKey fields "proof_bundle" with
    | false =>
      simp [validate_proof_payload, wellFormedPayload, hpb]
    | true =>
      have hmain := validateBundle_characterization
        ((fields.lookup "proof_bundle").getD JVal.null)
      have hval : validate_proof_payload (JVal.obj fields)
          = validateBundle ((fields.lookup "proof_bundle").getD JVal.null) := by
        simp [validate_proof_payload, hpb]
      rw [hval]
      refine ⟨?_, hmain.2.1, hmain.2.2⟩
      rw [hmain.1]
      constructor
      · rintro ⟨bundle, hb, hc2, hs2⟩
        exact ⟨fields, bundle, rfl, hb, hpb, hc2, hs2⟩
      · rintro ⟨fields2, bundle, heq, hb, _, hc2, hs2⟩
        injection heq with heq
        subst heq
        exact ⟨bundle, hb, hc2, hs2⟩
  | arr l => simp [validate_proof_payload, wellFormedPayload]
  | str s => simp [validate_proof_payload, wellFormedPayload]
  | num q => simp [validate_proof_payload, wellFormedPayload]
  | boolean b => simp [validate_proof_payload, wellFormedPayload]
  | null => simp [validate_proof_payload, wellFormedPayload]

/-- C10 witness: a well-formed payload validates as `(True, "Valid")`. -/
theorem validate_proof_payload_characterization_witness :
    validate_proof_payload samplePayload = (true, "Valid") :=
  (validate_proof_payload_characterization samplePayload).1.mpr
    ⟨[("proof_bundle",
        JVal.obj [("context", JVal.str "ctx"), ("signature", JVal.str "sig"),
                  ("public_key", JVal.str "pk"), ("algorithm", JVal.str "ECDSA-SHA256")]),
      ("metadata", JVal.obj [("client_version", JVal.str "1.0.0")])],
     [("context", JVal.str "ctx"), ("signature", JVal.str "sig"),
      ("public_key", JVal.str "pk"), ("algorithm", JVal.str "ECDSA-SHA256")],
     rfl, rfl, rfl, rfl, rfl⟩
